import Mathlib

/-!
Verification of the desktop invoicing tool (payment-provider integration layer).

This file shallowly embeds the parts of the program that the specification's
claims are about:

* the local SQLite ledger (`desktop_app/database.py`): the `payments` table and
  its operations `insert_payment`, `update_payment_status`, `get_last_payment`,
  `get_recent_payments_for_order`;
* the inbound notification listener (`desktop_app/result_server.py`):
  `ResultHandler.handle`;
* the signed request builder and gateway client (`desktop_app/invoice.py`):
  `build_invoice_jwt`, `get_payment_state`, the response-processing part of
  `create_invoice_and_get_link`, and `parse_opstate_xml`;
* the status-code mapping of `App.check_online_status` (`desktop_app/gui.py`).

The SQLite table is modelled as a `List Row` kept in insertion (ascending id)
order; SQL statements are translated to their list semantics.  Python standard
library primitives used by the code (MD5, HMAC, base64url, compact JSON
serialization, UTF-8 encoding) are implemented directly so that the signing
scheme can be stated byte-for-byte.
-/

namespace Robo

/-! ## Local ledger (`desktop_app/database.py`)

One row of the `payments` table.  `amount` is stored and returned untouched by
every ledger operation the claims mention, so its REAL type is modelled by an
integer scalar; `invoice_id` is a nullable INTEGER column. -/

structure Row where
  id : Nat
  created_at : String
  tg_user_id : Int
  tg_username : String
  order_number : String
  services : String
  amount : Int
  payment_url : String
  status : String
  invoice_id : Option Int
deriving DecidableEq, Repr

/-- AUTOINCREMENT: the next id is one more than the largest id ever used
(no rows are ever deleted by the application, so this is `max + 1`). -/
def nextId (db : List Row) : Nat :=
  db.foldr (fun r m => max r.id m) 0 + 1

/-- Embedding of `insert_payment`: appends one new row
(`INSERT INTO payments ... VALUES (...)`). -/
def insert_payment (db : List Row) (created_at : String) (tg_user_id : Int)
    (tg_username order_number services : String) (amount : Int)
    (payment_url status : String) (invoice_id : Option Int) : List Row :=
  db ++ [{ id := nextId db, created_at := created_at, tg_user_id := tg_user_id,
           tg_username := tg_username, order_number := order_number,
           services := services, amount := amount, payment_url := payment_url,
           status := status, invoice_id := invoice_id }]

/-- Embedding of `update_payment_status`:
`UPDATE payments SET status = ? WHERE order_number = ?`, returning the new
table and `cur.rowcount`.  SQLite's change counter counts every row matched by
the WHERE clause, even when the stored value is unchanged, so the count is the
number of rows whose `order_number` matches. -/
def update_payment_status (db : List Row) (order_number new_status : String) :
    List Row × Nat :=
  (db.map fun r =>
      if r.order_number == order_number then { r with status := new_status } else r,
   (db.filter fun r => r.order_number == order_number).length)

/-- Embedding of `get_recent_payments_for_order`:
`SELECT ... WHERE order_number = ? ORDER BY id DESC LIMIT {limit}`.
The table list is kept in ascending id order, so `ORDER BY id DESC` is
`reverse`. -/
def get_recent_payments_for_order (db : List Row) (order_number : String)
    (limit : Nat) : List Row :=
  ((db.filter fun r => r.order_number == order_number).reverse).take limit

/-- Embedding of `get_last_payment`: same query with `LIMIT 1`, `fetchone`. -/
def get_last_payment (db : List Row) (order_number : String) : Option Row :=
  (get_recent_payments_for_order db order_number 1).head?

/-! ## Inbound notification listener (`desktop_app/result_server.py`) -/

structure HttpResponse where
  status : Nat
  body : String
deriving DecidableEq, Repr

/-- Python truthiness of the extracted `Shp_order` field (`if shp_order:`):
present and non-empty. -/
def pyTruthy : Option String → Bool
  | none => false
  | some s => s != ""

/-- Embedding of `ResultHandler.handle`.

`postData`/`queryData` are the form and query-string field maps; the handler
reads one or the other depending on the method.  `OutSum`, `InvId` and
`SignatureValue` are read by the source but never used, so they do not appear.
`updateExc`/`getLastExc` inject the exception (if any) that the
`update_payment_status` / `get_last_payment` sqlite calls would raise at this
point; `none` means the call succeeds with the pure semantics above.  The
result is the new ledger, whether `notify_admin_paid` was invoked, and the
HTTP response.  An exception from `update_payment_status` is caught by the
outer `try` and becomes a 500; exceptions around the notification lookup are
caught by the inner `try` and swallowed (the response stays 200). -/
def resultHandle (method : String) (postData queryData : String → Option String)
    (db : List Row) (updateExc getLastExc : Option String) :
    List Row × Bool × HttpResponse :=
  let data := if method == "POST" then postData else queryData
  let shp_order := data "Shp_order"
  if pyTruthy shp_order then
    let ord := shp_order.getD ""
    match updateExc with
    | some e => (db, false, ⟨500, "Error: " ++ e⟩)
    | none =>
      let res := update_payment_status db ord "paid"
      if res.2 != 0 then
        match getLastExc with
        | some _ => (res.1, false, ⟨200, "OK"⟩)
        | none =>
          match get_last_payment res.1 ord with
          | some _ => (res.1, true, ⟨200, "OK"⟩)
          | none => (res.1, false, ⟨200, "OK"⟩)
      else (res.1, false, ⟨200, "OK"⟩)
  else (db, false, ⟨200, "OK"⟩)

/-! ## Reachable ledger states

The application writes to the ledger in exactly two ways: the invoice-creation
path inserts a fresh attempt with `status="created"` (`gui.py`, the
`insert_payment(..., status="created", ...)` call), and the listener marks an
order paid (`update_payment_status(shp_order, "paid")`). -/

inductive Step : List Row → List Row → Prop where
  | insert (db : List Row) (created_at : String) (tg_user_id : Int)
      (tg_username order_number services : String) (amount : Int)
      (payment_url : String) (invoice_id : Option Int) :
      Step db (insert_payment db created_at tg_user_id tg_username order_number
        services amount payment_url "created" invoice_id)
  | markPaid (db : List Row) (order_number : String) :
      Step db (update_payment_status db order_number "paid").1

inductive Reachable : List Row → Prop where
  | nil : Reachable []
  | step {db db' : List Row} : Reachable db → Step db db' → Reachable db'

/-- Status of the row with a given id, if present. -/
def statusOf (db : List Row) (i : Nat) : Option String :=
  (db.find? fun r => r.id == i).map Row.status

/-! ## Byte-level primitives

The signing scheme of `build_invoice_jwt` uses the Python standard library:
`str.encode("utf-8")`, `base64.urlsafe_b64encode(...).rstrip("=")`,
`hmac.new(key, msg, hashlib.md5)` and `hashlib.md5(...).hexdigest()`.  These
are implemented here over `List Nat` byte strings (each byte `< 256`), with
32-bit arithmetic written as `Nat` arithmetic `% 2^32`. -/

/-- UTF-8 encoding of one Unicode code point. -/
def utf8Encode (c : Nat) : List Nat :=
  if c < 0x80 then [c]
  else if c < 0x800 then
    [0xC0 + c / 64, 0x80 + c % 64]
  else if c < 0x10000 then
    [0xE0 + c / 4096, 0x80 + c / 64 % 64, 0x80 + c % 64]
  else
    [0xF0 + c / 262144, 0x80 + c / 4096 % 64, 0x80 + c / 64 % 64, 0x80 + c % 64]

/-- UTF-8 byte string of a list of characters. -/
def charsBytes (l : List Char) : List Nat :=
  (l.map fun c => utf8Encode c.toNat).flatten

/-- UTF-8 byte string of a `String` (Python `s.encode("utf-8")`; for pure-ASCII
strings this coincides with `s.encode("ascii")`). -/
def strBytes (s : String) : List Nat :=
  charsBytes s.data

/-- Alphabet of `base64.urlsafe_b64encode`. -/
def b64Alphabet : List Char :=
  "ABCDEFGHIJKLMNOPQRSTUVWXYZabcdefghijklmnopqrstuvwxyz0123456789-_".data

def b64Char (n : Nat) : Char := b64Alphabet.getD n 'A'

/-- base64url encoding without padding
(`base64.urlsafe_b64encode(b).decode("ascii").rstrip("=")`). -/
def base64urlNoPad : List Nat → List Char
  | [] => []
  | [a] => [b64Char (a / 4), b64Char (a % 4 * 16)]
  | [a, b] => [b64Char (a / 4), b64Char (a % 4 * 16 + b / 16), b64Char (b % 16 * 4)]
  | a :: b :: c :: rest =>
      b64Char (a / 4) :: b64Char (a % 4 * 16 + b / 16) ::
      b64Char (b % 16 * 4 + c / 64) :: b64Char (c % 64) :: base64urlNoPad rest

/-! ### MD5 (`hashlib.md5`) -/

/-- Per-round rotation amounts of MD5. -/
def md5S : List Nat :=
  [7, 12, 17, 22, 7, 12, 17, 22, 7, 12, 17, 22, 7, 12, 17, 22,
   5, 9, 14, 20, 5, 9, 14, 20, 5, 9, 14, 20, 5, 9, 14, 20,
   4, 11, 16, 23, 4, 11, 16, 23, 4, 11, 16, 23, 4, 11, 16, 23,
   6, 10, 15, 21, 6, 10, 15, 21, 6, 10, 15, 21, 6, 10, 15, 21]

/-- MD5 sine-derived constants `K[i] = floor(2^32 * |sin(i+1)|)`. -/
def md5K : List Nat :=
  [0xd76aa478, 0xe8c7b756, 0x242070db, 0xc1bdceee,
   0xf57c0faf, 0x4787c62a, 0xa8304613, 0xfd469501,
   0x698098d8, 0x8b44f7af, 0xffff5bb1, 0x895cd7be,
   0x6b901122, 0xfd987193, 0xa679438e, 0x49b40821,
   0xf61e2562, 0xc040b340, 0x265e5a51, 0xe9b6c7aa,
   0xd62f105d, 0x02441453, 0xd8a1e681, 0xe7d3fbc8,
   0x21e1cde6, 0xc33707d6, 0xf4d50d87, 0x455a14ed,
   0xa9e3e905, 0xfcefa3f8, 0x676f02d9, 0x8d2a4c8a,
   0xfffa3942, 0x8771f681, 0x6d9d6122, 0xfde5380c,
   0xa4beea44, 0x4bdecfa9, 0xf6bb4b60, 0xbebfbc70,
   0x289b7ec6, 0xeaa127fa, 0xd4ef3085, 0x04881d05,
   0xd9d4d039, 0xe6db99e5, 0x1fa27cf8, 0xc4ac5665,
   0xf4292244, 0x432aff97, 0xab9423a7, 0xfc93a039,
   0x655b59c3, 0x8f0ccc92, 0xffeff47d, 0x85845dd1,
   0x6fa87e4f, 0xfe2ce6e0, 0xa3014314, 0x4e0811a1,
   0xf7537e82, 0xbd3af235, 0x2ad7d2bb, 0xeb86d391]

def md5Mask : Nat := 4294967296

/-- 32-bit left rotation over `Nat`. -/
def rotl32 (x n : Nat) : Nat :=
  (x * 2 ^ n + x / 2 ^ (32 - n)) % md5Mask

/-- Little-endian byte serialization of `n` on `k` bytes. -/
def leBytes (n : Nat) : Nat → List Nat
  | 0 => []
  | k + 1 => n % 256 :: leBytes (n / 256) k

/-- Little-endian 32-bit words of a list of bytes. -/
def leWords : List Nat → List Nat
  | a :: b :: c :: d :: rest => (a + b * 256 + c * 65536 + d * 16777216) :: leWords rest
  | _ => []

/-- MD5 padding: append `0x80`, zero-pad to 56 mod 64, then the bit length as
a 64-bit little-endian integer. -/
def md5Pad (msg : List Nat) : List Nat :=
  msg ++ [0x80] ++ List.replicate ((56 + 64 - (msg.length + 1) % 64) % 64) 0
      ++ leBytes (msg.length * 8 % 2 ^ 64) 8

/-- One of the 64 MD5 steps. -/
def md5Step (M : List Nat) (st : Nat × Nat × Nat × Nat) (i : Nat) :
    Nat × Nat × Nat × Nat :=
  let (A, B, C, D) := st
  let notB := 4294967295 ^^^ B
  let notD := 4294967295 ^^^ D
  let F :=
    if i < 16 then B &&& C ||| notB &&& D
    else if i < 32 then D &&& B ||| notD &&& C
    else if i < 48 then B ^^^ C ^^^ D
    else C ^^^ (B ||| notD)
  let g :=
    if i < 16 then i
    else if i < 32 then (5 * i + 1) % 16
    else if i < 48 then (3 * i + 5) % 16
    else 7 * i % 16
  let F' := (F + A + md5K.getD i 0 + M.getD g 0) % md5Mask
  (D, (B + rotl32 F' (md5S.getD i 0)) % md5Mask, B, C)

/-- Process one 64-byte chunk. -/
def md5Chunk (st : Nat × Nat × Nat × Nat) (chunk : List Nat) :
    Nat × Nat × Nat × Nat :=
  let M := leWords chunk
  let (A, B, C, D) := (List.range 64).foldl (md5Step M) st
  let (a, b, c, d) := st
  ((a + A) % md5Mask, (b + B) % md5Mask, (c + C) % md5Mask, (d + D) % md5Mask)

/-- Split a (padded) byte string into 64-byte chunks. -/
def chunks64 (l : List Nat) : List (List Nat) :=
  if l.isEmpty then [] else l.take 64 :: chunks64 (l.drop 64)
termination_by l.length
decreasing_by
  simp only [List.length_drop]
  have : l ≠ [] := by simpa [List.isEmpty_iff] using (by assumption : ¬l.isEmpty = true)
  have : 0 < l.length := List.length_pos.mpr this
  omega

/-- MD5 digest (16 bytes) of a byte string. -/
def md5 (msg : List Nat) : List Nat :=
  let (a, b, c, d) :=
    (chunks64 (md5Pad msg)).foldl md5Chunk
      (0x67452301, 0xefcdab89, 0x98badcfe, 0x10325476)
  leBytes a 4 ++ leBytes b 4 ++ leBytes c 4 ++ leBytes d 4

/-- HMAC with MD5 (`hmac.new(key, msg, hashlib.md5)`), block size 64. -/
def hmacMd5 (key msg : List Nat) : List Nat :=
  let k0 := if 64 < key.length then md5 key else key
  let k := k0 ++ List.replicate (64 - k0.length) 0
  let ipad := k.map fun b => b ^^^ 0x36
  let opad := k.map fun b => b ^^^ 0x5c
  md5 (opad ++ md5 (ipad ++ msg))

def hexChar (n : Nat) : Char := "0123456789abcdef".data.getD n '0'

/-- Lowercase hex digest of an MD5 hash (`hashlib.md5(...).hexdigest()`). -/
def md5hex (msg : List Nat) : String :=
  String.mk (((md5 msg).map fun b => [hexChar (b / 16), hexChar (b % 16)]).flatten)

/-! ## Compact JSON serialization (`json.dumps(..., ensure_ascii=False)`) -/

/-- Escaping of one character inside a JSON string literal, per Python's
`json.dumps` with `ensure_ascii=False`: only `"`, `\` and control characters
below `0x20` are escaped. -/
def jsonEscapeChar (c : Char) : List Char :=
  if c = '"' then ['\\', '"']
  else if c = '\\' then ['\\', '\\']
  else if c = '\x08' then ['\\', 'b']
  else if c = '\x09' then ['\\', 't']
  else if c = '\x0a' then ['\\', 'n']
  else if c = '\x0c' then ['\\', 'f']
  else if c = '\x0d' then ['\\', 'r']
  else if c.toNat < 0x20 then ['\\', 'u', '0', '0', hexChar (c.toNat / 16), hexChar (c.toNat % 16)]
  else [c]

/-- JSON string literal for `s` (quotes included). -/
def jsonEscape (s : String) : String :=
  String.mk ('"' :: (s.data.map jsonEscapeChar).flatten ++ ['"'])

/-! ## Signed request builder (`desktop_app/invoice.py`) -/

/-- Compact serialization of the fixed header object
`{"typ": "JWT", "alg": "MD5"}` (Python dicts preserve insertion order). -/
def headerJsonStr : String := "\x7b\"typ\":\"JWT\",\"alg\":\"MD5\"\x7d"

/-- Python `tax_value = TAX or "none"`. -/
def taxValue (tax : String) : String := if tax = "" then "none" else tax

/-- Compact serialization of the payload object of `build_invoice_jwt`.
`amountRepr` stands for the JSON serialization of the Python float
`float(amount)` (e.g. `"1500.0"`), which appears verbatim both as `OutSum`
and as the single item's `Cost`. -/
def payloadJsonStr (login desc itemName tax amountRepr : String) : String :=
  "\x7b\"MerchantLogin\":" ++ jsonEscape login ++
  ",\"InvoiceType\":\"OneTime\",\"Culture\":\"ru\",\"OutSum\":" ++ amountRepr ++
  ",\"Description\":" ++ jsonEscape desc ++
  ",\"InvoiceItems\":[\x7b\"Name\":" ++ jsonEscape itemName ++
  ",\"Quantity\":1,\"Cost\":" ++ amountRepr ++
  ",\"Tax\":" ++ jsonEscape (taxValue tax) ++
  ",\"PaymentMethod\":\"full_payment\",\"PaymentObject\":\"service\"\x7d]\x7d"

structure JwtParts where
  token : String
  header_b64 : String
  payload_b64 : String
deriving DecidableEq, Repr

/-- Embedding of `build_invoice_jwt`.  The configuration globals
`MERCHANT_LOGIN`, `PASSWORD1`, `TAX` are passed explicitly (they are plain
strings after `apply_config_to_globals`, so `not MERCHANT_LOGIN` is the
emptiness test).  Returns the token and the two signed segments, or the
`RuntimeError` message. -/
def build_invoice_jwt (login pass1 tax desc amountRepr itemName : String) :
    Except String JwtParts :=
  if login = "" ∨ pass1 = "" then
    .error "Не заданы MerchantLogin / Password1 в настройках Robokassa."
  else
    let hb := String.mk (base64urlNoPad (strBytes headerJsonStr))
    let pb := String.mk (base64urlNoPad (strBytes (payloadJsonStr login desc itemName tax amountRepr)))
    let signingInput := strBytes (hb ++ "." ++ pb)
    let key := strBytes (login ++ ":" ++ pass1)
    let sb := String.mk (base64urlNoPad (hmacMd5 key signingInput))
    .ok ⟨hb ++ "." ++ pb ++ "." ++ sb, hb, pb⟩

/-- Query parameters of the `OpStateExt` status request. -/
structure OpStateRequest where
  merchantLogin : String
  invoiceID : String
  signature : String
deriving DecidableEq, Repr

/-- Embedding of `get_payment_state` up to (and excluding) the outbound HTTP
call: the configuration check and the construction of the request that would
be sent.  `invId` is the `str(inv_id)` form of the invoice id.  An `.error`
means the `RuntimeError` is raised before any request is built. -/
def get_payment_state (login pass2 invId : String) :
    Except String OpStateRequest :=
  if login = "" ∨ pass2 = "" then
    .error "Не заданы MerchantLogin / Password2 в настройках Robokassa."
  else
    .ok ⟨login, invId, md5hex (strBytes (login ++ ":" ++ invId ++ ":" ++ pass2))⟩

/-! ## Gateway client response processing (`create_invoice_and_get_link`) -/

/-- JSON values as far as the response-processing code distinguishes them. -/
inductive JVal where
  | jNull
  | jBool (b : Bool)
  | jNum (n : Int)
  | jStr (s : String)
deriving DecidableEq, Repr

/-- Python truthiness of a JSON value. -/
def JVal.truthy : JVal → Bool
  | .jNull => false
  | .jBool b => b
  | .jNum n => n != 0
  | .jStr s => s != ""

/-- Truthiness of `data.get(k)` (absent key is `None`, falsy). -/
def truthyOpt : Option JVal → Bool
  | none => false
  | some v => v.truthy

/-- `data.get(k)` on the parsed JSON object (first binding wins). -/
def jget (data : List (String × JVal)) (k : String) : Option JVal :=
  (data.find? fun p => p.1 == k).map Prod.snd

/-- Python `a or b`: `a` if truthy, else `b`. -/
def pyOr (a b : Option JVal) : Option JVal :=
  if truthyOpt a then a else b

/-- Python `str()` of a value, as an f-string renders it. -/
def jvalPyStr : JVal → String
  | .jNull => "None"
  | .jBool true => "True"
  | .jBool false => "False"
  | .jNum n => toString n
  | .jStr s => s

/-- Serialization of a value by `json.dumps(..., ensure_ascii=False)`
(default separators). -/
def jsonDumpVal : JVal → String
  | .jNull => "null"
  | .jBool true => "true"
  | .jBool false => "false"
  | .jNum n => toString n
  | .jStr s => jsonEscape s

def jsonDumpObj (data : List (String × JVal)) : String :=
  "\x7b" ++ String.intercalate ", "
    (data.map fun p => jsonEscape p.1 ++ ": " ++ jsonDumpVal p.2) ++ "\x7d"

/-- The `or`-chain of casing variants for the payment link. -/
def linkOf (data : List (String × JVal)) : Option JVal :=
  pyOr (pyOr (pyOr (pyOr (pyOr (jget data "invoiceUrl") (jget data "InvoiceUrl"))
    (jget data "url")) (jget data "Url")) (jget data "paymentUrl")) (jget data "PaymentUrl")

/-- The `or`-chain of casing variants for the provider invoice id. -/
def invoiceIdOf (data : List (String × JVal)) : Option JVal :=
  pyOr (pyOr (jget data "invId") (jget data "invoiceId")) (jget data "InvoiceId")

/-- Embedding of the response-processing tail of `create_invoice_and_get_link`
(everything after `resp.json()` has produced the object `data`). -/
def create_invoice_process (data : List (String × JVal)) :
    Except String (JVal × Option JVal) :=
  if truthyOpt (jget data "isSuccess") = false then
    let msg := match jget data "message" with
      | some v => if v.truthy then jvalPyStr v else "Неизвестная ошибка Invoice API"
      | none => "Неизвестная ошибка Invoice API"
    .error ("Robokassa вернула ошибку: " ++ msg)
  else
    match linkOf data with
    | some v =>
        if v.truthy then .ok (v, invoiceIdOf data)
        else .error ("Не удалось найти ссылку в ответе Invoice API: " ++ jsonDumpObj data)
    | none => .error ("Не удалось найти ссылку в ответе Invoice API: " ++ jsonDumpObj data)

/-! ## OpState XML parsing (`parse_opstate_xml`)

The source first parses the response text with `xml.etree.ElementTree`
(standard library) and then walks the resulting element tree; the embedding
works on that tree.  `text` is the element's text node (`None` when the
element is empty, as in `<Code></Code>`). -/

inductive Xml where
  | el (tag : String) (text : Option String) (children : List Xml)

def Xml.tagOf : Xml → String
  | .el t _ _ => t

def Xml.textOf : Xml → Option String
  | .el _ t _ => t

def Xml.childrenOf : Xml → List Xml
  | .el _ _ c => c

/-- Python `el.tag.split("}", 1)[1]`: everything after the first `}`. -/
def afterBrace : List Char → List Char
  | [] => []
  | c :: r => if c = '}' then r else afterBrace r

def stripNsTag (t : String) : String :=
  if '}' ∈ t.data then String.mk (afterBrace t.data) else t

mutual

/-- Namespace stripping applied by the `for el in root.iter()` loop to every
element of the tree, the root included. -/
def stripNsAll : Xml → Xml
  | .el t tx ch => .el (stripNsTag t) tx (stripNsChildren ch)

def stripNsChildren : List Xml → List Xml
  | [] => []
  | x :: xs => stripNsAll x :: stripNsChildren xs

end

/-- One step of `ElementTree` path lookup: all children with the given tag of
all the elements selected so far, in document order. -/
def childrenTagged (tag : String) (els : List Xml) : List Xml :=
  (els.map fun e => e.childrenOf.filter fun c => c.tagOf == tag).flatten

/-- `root.find("t1")`: the first child with that tag. -/
def findPath1 (root : Xml) (t1 : String) : Option Xml :=
  (childrenTagged t1 [root]).head?

/-- `root.find("t1/t2")`: the first match of the two-step pipeline. -/
def findPath2 (root : Xml) (t1 t2 : String) : Option Xml :=
  (childrenTagged t2 (childrenTagged t1 [root])).head?

/-- `root.find("t1/t2/t3")`: the first match of the three-step pipeline
(used for `Info/PaymentMethod/Code`). -/
def findPath3 (root : Xml) (t1 t2 t3 : String) : Option Xml :=
  (childrenTagged t3 (childrenTagged t2 (childrenTagged t1 [root]))).head?

/-- Python whitespace characters stripped by `str.strip()` (the ASCII ones;
the claims only involve these). -/
def isPySpace (c : Char) : Bool :=
  c = ' ' || c = '\t' || c = '\n' || c = '\x0b' || c = '\x0c' || c = '\r'

/-- Python `s.strip()`. -/
def pyStrip (s : String) : String :=
  String.mk (((s.data.dropWhile isPySpace).reverse.dropWhile isPySpace).reverse)

/-- Python `str.isdigit()` over the ASCII digits (the gateway's numeric state
codes); Python additionally accepts other Unicode digit characters, which
never occur in these codes. -/
def pyIsDigit (s : String) : Bool :=
  s != "" && s.data.all Char.isDigit

/-- The Python guard `el is not None and el.text`. -/
def hasText : Option Xml → Bool
  | some (.el _ (some t) _) => t != ""
  | _ => false

/-- One `if el is not None and el.text: result[key] = el.text.strip()` step
(the `grab` helper of `desktop_app.py`): the entry it contributes, or
nothing.  An absent element or a `None`/empty text adds nothing; any
non-empty text (even whitespace-only) adds the stripped text. -/
def addFieldOne (key : String) (e : Option Xml) : List (String × String) :=
  match e with
  | some (.el _ (some t) _) => if t ≠ "" then [(key, pyStrip t)] else []
  | _ => []

/-- The `else` branch of the StateCode block (`desktop_app.py:522-525`): when
`State/Code` contributes nothing, the `State` element's own text is used if
it is non-empty and strips to a digit string. -/
def stateFallbackOne (stateEl : Option Xml) : List (String × String) :=
  match stateEl with
  | some (.el _ (some t) _) =>
      if t ≠ "" ∧ pyIsDigit (pyStrip t) = true then [("StateCode", pyStrip t)]
      else []
  | _ => []

/-- The StateCode block of `parse_opstate_xml` (`desktop_app.py:519-525`):
prefer `State/Code`'s non-empty text, else fall back to the `State` element's
own digit text. -/
def stateCodeOne (code stateEl : Option Xml) : List (String × String) :=
  match code with
  | some (.el _ (some t) _) =>
      if t ≠ "" then [("StateCode", pyStrip t)] else stateFallbackOne stateEl
  | _ => stateFallbackOne stateEl

/-- Embedding of `parse_opstate_xml` from `desktop_app.py:483-549`, the copy
that runs: `desktop_app.py` is the entry point carrying `main()` and shadows
the `desktop_app` package (the package directory has no `__init__.py`, and
its `gui.py` calls `get_payment_state_by_inv_id`, which only
`desktop_app.py` defines).  This copy differs from
`desktop_app/invoice.py:168-232` in two ways: `StateCode` falls back to the
`State` element's own digit text when `State/Code` is absent or has empty
text, and the payment-method code is read from the three-level path
`Info/PaymentMethod/Code` rather than `Info/PaymentMethodCode`.  The parser
works on the `ElementTree` element tree after namespace stripping; the twelve
keys are pairwise distinct, so the dict in insertion order is the
concatenation of the per-field contributions. -/
def parse_opstate_xml (root : Xml) : List (String × String) :=
  let r := stripNsAll root
  addFieldOne "ResultCode" (findPath2 r "Result" "Code") ++
  addFieldOne "ResultDescription" (findPath2 r "Result" "Description") ++
  stateCodeOne (findPath2 r "State" "Code") (findPath1 r "State") ++
  addFieldOne "RequestDate" (findPath2 r "State" "RequestDate") ++
  addFieldOne "StateDate" (findPath2 r "State" "StateDate") ++
  addFieldOne "IncCurrLabel" (findPath2 r "Info" "IncCurrLabel") ++
  addFieldOne "IncSum" (findPath2 r "Info" "IncSum") ++
  addFieldOne "IncAccount" (findPath2 r "Info" "IncAccount") ++
  addFieldOne "PaymentMethodCode" (findPath3 r "Info" "PaymentMethod" "Code") ++
  addFieldOne "OutCurrLabel" (findPath2 r "Info" "OutCurrLabel") ++
  addFieldOne "OutSum" (findPath2 r "Info" "OutSum") ++
  addFieldOne "OpKey" (findPath2 r "Info" "OpKey")

/-! ## Status-code mapping (`App.check_online_status`, `desktop_app/gui.py`) -/

/-- The `state_map` dictionary. -/
def state_map : List (String × String) :=
  [("5", "ожидает оплаты"),
   ("10", "отменён, деньги не получены"),
   ("20", "средства заморожены (HOLD)"),
   ("50", "деньги получены, зачисляются"),
   ("60", "отказ в зачислении / возврат"),
   ("80", "исполнение приостановлено"),
   ("100", "успешно оплачено")]

/-- Embedding of `state_map.get(state_code or "", "статус не определён")`
where `state_code = info.get("StateCode")`. -/
def stateDescription (stateCode : Option String) : String :=
  ((state_map.find? fun p => p.1 == stateCode.getD "").map Prod.snd).getD
    "статус не определён"

/-! ## Helper lemmas about the ledger operations -/

/-- The per-row function applied by `update_payment_status`. -/
def setStatusIf (ord st : String) (r : Row) : Row :=
  if r.order_number == ord then { r with status := st } else r

theorem update_payment_status_eq (db : List Row) (ord st : String) :
    update_payment_status db ord st =
      (db.map (setStatusIf ord st),
       (db.filter fun r => r.order_number == ord).length) := rfl

theorem setStatusIf_id (ord st : String) (r : Row) :
    (setStatusIf ord st r).id = r.id := by
  unfold setStatusIf; split <;> rfl

theorem setStatusIf_order (ord st : String) (r : Row) :
    (setStatusIf ord st r).order_number = r.order_number := by
  unfold setStatusIf; split <;> rfl

theorem setStatusIf_matched (ord : String) (r : Row) (h : r.order_number = ord) :
    setStatusIf ord "paid" r = { r with status := "paid" } := by
  unfold setStatusIf
  simp [h]

theorem setStatusIf_status_paid (ord : String) (r : Row)
    (h : r.status = "created" ∨ r.status = "paid") :
    (setStatusIf ord "paid" r).status = "created" ∨
    (setStatusIf ord "paid" r).status = "paid" := by
  unfold setStatusIf
  split
  · right; rfl
  · exact h

theorem filter_order_map_setStatusIf (db : List Row) (ord st : String) :
    ((db.map (setStatusIf ord st)).filter fun r => r.order_number == ord) =
      (db.filter fun r => r.order_number == ord).map (setStatusIf ord st) := by
  rw [List.filter_map]
  congr 1
  apply List.filter_congr
  intro r _
  simp [Function.comp, setStatusIf_order]

theorem head?_take_one {α : Type} (l : List α) : (l.take 1).head? = l.head? := by
  cases l <;> rfl

/-- `find?` on an id-predicate commutes with a row map that preserves ids. -/
theorem find?_id_map (f : Row → Row) (hf : ∀ x, (f x).id = x.id)
    (db : List Row) (i : Nat) (r : Row)
    (h : db.find? (fun x => x.id == i) = some r) :
    (db.map f).find? (fun x => x.id == i) = some (f r) := by
  induction db with
  | nil => simp at h
  | cons a l ih =>
    rw [List.map_cons]
    by_cases ha : (a.id == i) = true
    · have h1 : ((f a).id == i) = true := by rw [hf]; exact ha
      rw [@List.find?_cons_of_pos Row (fun x => x.id == i) (f a) (List.map f l) h1]
      rw [@List.find?_cons_of_pos Row (fun x => x.id == i) a l ha] at h
      rw [Option.some.inj h]
    · have h1 : ¬((f a).id == i) = true := by rw [hf]; exact ha
      rw [@List.find?_cons_of_neg Row (fun x => x.id == i) (f a) (List.map f l) h1]
      rw [@List.find?_cons_of_neg Row (fun x => x.id == i) a l ha] at h
      exact ih h

/-! ## C4 -/

/-- C4: the numeric-state-code-to-human-status mapping is a total pure
function: "5" ↦ awaiting payment, "10" ↦ cancelled, "20" ↦ funds held,
"50" ↦ funds credited (in progress), "60" ↦ credit refused/refund,
"80" ↦ execution suspended, "100" ↦ paid; every other code, and an absent
code, yields "статус не определён" (status undetermined). -/
theorem state_code_mapping_total :
    stateDescription (some "5") = "ожидает оплаты" ∧
    stateDescription (some "10") = "отменён, деньги не получены" ∧
    stateDescription (some "20") = "средства заморожены (HOLD)" ∧
    stateDescription (some "50") = "деньги получены, зачисляются" ∧
    stateDescription (some "60") = "отказ в зачислении / возврат" ∧
    stateDescription (some "80") = "исполнение приостановлено" ∧
    stateDescription (some "100") = "успешно оплачено" ∧
    stateDescription none = "статус не определён" ∧
    ∀ s : String, s ∉ ["5", "10", "20", "50", "60", "80", "100"] →
      stateDescription (some s) = "статус не определён" := by
  refine ⟨rfl, rfl, rfl, rfl, rfl, rfl, rfl, rfl, ?_⟩
  intro s hs
  simp only [List.mem_cons, List.not_mem_nil, or_false, not_or] at hs
  obtain ⟨h5, h10, h20, h50, h60, h80, h100⟩ := hs
  simp [stateDescription, state_map, List.find?,
    beq_eq_false_iff_ne.mpr (Ne.symm h5), beq_eq_false_iff_ne.mpr (Ne.symm h10),
    beq_eq_false_iff_ne.mpr (Ne.symm h20), beq_eq_false_iff_ne.mpr (Ne.symm h50),
    beq_eq_false_iff_ne.mpr (Ne.symm h60), beq_eq_false_iff_ne.mpr (Ne.symm h80),
    beq_eq_false_iff_ne.mpr (Ne.symm h100)]

/-- Witness for C4 at the unknown code "7". -/
theorem state_code_mapping_total_witness :
    stateDescription (some "7") = "статус не определён" :=
  state_code_mapping_total.2.2.2.2.2.2.2.2 "7" (by decide)

/-! ## C3 -/

/-- C3: `update_payment_status db ord "paid"` sets status "paid" on exactly
the rows whose `order_number` matches (in particular the most recent one),
leaves every other row unchanged, and returns the number of matching rows. -/
theorem mark_paid_updates_matching_rows (db : List Row) (ord : String) :
    (update_payment_status db ord "paid").1.length = db.length ∧
    (∀ (i : Nat) (r : Row), db[i]? = some r →
      (r.order_number = ord →
        (update_payment_status db ord "paid").1[i]? =
          some { r with status := "paid" }) ∧
      (r.order_number ≠ ord →
        (update_payment_status db ord "paid").1[i]? = some r)) ∧
    (update_payment_status db ord "paid").2 =
      (db.filter fun r => r.order_number == ord).length ∧
    ((∃ r ∈ db, r.order_number = ord) →
      ∃ r', get_last_payment (update_payment_status db ord "paid").1 ord = some r' ∧
        r'.status = "paid") := by
  rw [update_payment_status_eq]
  refine ⟨List.length_map _ _, ?_, rfl, ?_⟩
  · intro i r hi
    rw [List.getElem?_map, hi]
    constructor
    · intro hro
      simp [setStatusIf_matched ord r hro]
    · intro hro
      simp [setStatusIf, beq_eq_false_iff_ne.mpr hro]
  · rintro ⟨r, hr, hro⟩
    have hfil : r ∈ db.filter fun x => x.order_number == ord := by
      rw [List.mem_filter]
      exact ⟨hr, by simp [hro]⟩
    have hne : (db.filter fun x => x.order_number == ord) ≠ [] :=
      List.ne_nil_of_mem hfil
    unfold get_last_payment get_recent_payments_for_order
    rw [filter_order_map_setStatusIf, head?_take_one, List.head?_reverse]
    have hne2 : ((db.filter fun x => x.order_number == ord).map
        (setStatusIf ord "paid")) ≠ [] := by
      simpa using hne
    refine ⟨_, List.getLast?_eq_getLast _ hne2, ?_⟩
    have hxmem := List.getLast_mem hne2
    obtain ⟨y, hy, hyx⟩ := List.mem_map.mp hxmem
    have hyo : y.order_number = ord := by
      have := (List.mem_filter.mp hy).2
      simpa using this
    rw [← hyx, setStatusIf_matched ord y hyo]

/-- Sample ledger rows for concrete instantiations. -/
def sampleRow1 : Row :=
  { id := 1, created_at := "2024-01-01 10:00:00", tg_user_id := 0,
    tg_username := "", order_number := "A-1", services := "svc",
    amount := 1500, payment_url := "http://pay/1", status := "created",
    invoice_id := none }

def sampleRow2 : Row :=
  { id := 2, created_at := "2024-01-01 11:00:00", tg_user_id := 0,
    tg_username := "", order_number := "B-2", services := "svc",
    amount := 700, payment_url := "http://pay/2", status := "created",
    invoice_id := none }

/-- Witness for C3 at a concrete two-order ledger: the affected-row count is
the number of matching rows, and the most recent "A-1" row ends up paid. -/
theorem mark_paid_updates_matching_rows_witness :
    (update_payment_status [sampleRow1, sampleRow2] "A-1" "paid").2 =
      ([sampleRow1, sampleRow2].filter fun r => r.order_number == "A-1").length ∧
    ∃ r', get_last_payment (update_payment_status [sampleRow1, sampleRow2] "A-1" "paid").1
        "A-1" = some r' ∧ r'.status = "paid" :=
  ⟨(mark_paid_updates_matching_rows [sampleRow1, sampleRow2] "A-1").2.2.1,
   (mark_paid_updates_matching_rows [sampleRow1, sampleRow2] "A-1").2.2.2
     ⟨sampleRow1, by decide, by decide⟩⟩

/-! ## C8 -/

/-- C8: on a ledger whose rows are in insertion order (strictly increasing
ids, as AUTOINCREMENT produces), `get_recent_payments_for_order db ord 3`
returns at most 3 rows, every returned row belongs to `ord`, and the rows are
newest first (strictly decreasing ids). -/
theorem most_recent_three_shape (db : List Row) (ord : String)
    (hsorted : db.Pairwise fun a b => a.id < b.id) :
    (get_recent_payments_for_order db ord 3).length ≤ 3 ∧
    (∀ r ∈ get_recent_payments_for_order db ord 3, r.order_number = ord) ∧
    (get_recent_payments_for_order db ord 3).Pairwise fun a b => b.id < a.id := by
  refine ⟨List.length_take_le _ _, ?_, ?_⟩
  · intro r hr
    unfold get_recent_payments_for_order at hr
    have hr2 := (List.take_sublist _ _).subset hr
    rw [List.mem_reverse] at hr2
    have := (List.mem_filter.mp hr2).2
    simpa using this
  · unfold get_recent_payments_for_order
    apply List.Pairwise.sublist (List.take_sublist _ _)
    rw [List.pairwise_reverse]
    exact hsorted.filter _

/-- Witness for C8: a concrete four-row ledger with three attempts for
order "A-1". -/
theorem most_recent_three_shape_witness :
    (get_recent_payments_for_order
      [sampleRow1, sampleRow2,
       { sampleRow1 with id := 3, created_at := "2024-01-02 09:00:00" },
       { sampleRow1 with id := 4, created_at := "2024-01-03 09:00:00" }]
      "A-1" 3).length ≤ 3 ∧
    (∀ r ∈ get_recent_payments_for_order
      [sampleRow1, sampleRow2,
       { sampleRow1 with id := 3, created_at := "2024-01-02 09:00:00" },
       { sampleRow1 with id := 4, created_at := "2024-01-03 09:00:00" }]
      "A-1" 3, r.order_number = "A-1") ∧
    (get_recent_payments_for_order
      [sampleRow1, sampleRow2,
       { sampleRow1 with id := 3, created_at := "2024-01-02 09:00:00" },
       { sampleRow1 with id := 4, created_at := "2024-01-03 09:00:00" }]
      "A-1" 3).Pairwise (fun a b => b.id < a.id) :=
  most_recent_three_shape _ "A-1" (by decide)

/-! ## C9 -/

theorem statusOf_insert (db : List Row) (i : Nat) (s : String)
    (created_at : String) (tg_user_id : Int)
    (tg_username order_number services : String) (amount : Int)
    (payment_url status : String) (invoice_id : Option Int)
    (h : statusOf db i = some s) :
    statusOf (insert_payment db created_at tg_user_id tg_username order_number
      services amount payment_url status invoice_id) i = some s := by
  unfold statusOf at h
  unfold statusOf insert_payment
  rw [List.find?_append]
  obtain ⟨r, hr, hrs⟩ := Option.map_eq_some'.mp h
  rw [hr]
  simpa using hrs

theorem statusOf_markPaid (db : List Row) (i : Nat) (ord : String)
    (h : statusOf db i = some "paid") :
    statusOf (update_payment_status db ord "paid").1 i = some "paid" := by
  unfold statusOf at h ⊢
  rw [update_payment_status_eq]
  obtain ⟨r, hr, hrs⟩ := Option.map_eq_some'.mp h
  rw [find?_id_map (setStatusIf ord "paid") (setStatusIf_id ord "paid") db i r hr]
  simp only [Option.map_some']
  congr 1
  unfold setStatusIf
  split
  · rfl
  · exact hrs

/-- C9: in every ledger state reachable through the application's own writes
(inserting fresh attempts with status "created", and the listener marking
orders paid), every row's status is "created" or "paid", and no write step
ever takes a row whose status is "paid" back to anything else. -/
theorem ledger_status_invariant (db : List Row) (h : Reachable db) :
    (∀ r ∈ db, r.status = "created" ∨ r.status = "paid") ∧
    (∀ db', Step db db' → ∀ i : Nat,
      statusOf db i = some "paid" → statusOf db' i = some "paid") := by
  constructor
  · induction h with
    | nil => intro r hr; simp at hr
    | step _ hstep ih =>
      cases hstep with
      | insert created_at tg_user_id tg_username order_number services
          amount payment_url invoice_id =>
        intro r hr
        unfold insert_payment at hr
        rcases List.mem_append.mp hr with hr | hr
        · exact ih r hr
        · left
          simp only [List.mem_singleton] at hr
          rw [hr]
      | markPaid ord =>
        intro r hr
        rw [update_payment_status_eq] at hr
        obtain ⟨x, hx, hxr⟩ := List.mem_map.mp hr
        rw [← hxr]
        exact setStatusIf_status_paid ord x (ih x hx)
  · intro db' hstep i hpaid
    cases hstep with
    | insert created_at tg_user_id tg_username order_number services
        amount payment_url invoice_id =>
      exact statusOf_insert db i "paid" _ _ _ _ _ _ _ "created" _ hpaid
    | markPaid ord =>
      exact statusOf_markPaid db i ord hpaid

/-- Witness for C9: the state reached by one insert followed by marking the
order paid. -/
theorem ledger_status_invariant_witness :
    (∀ r ∈ (update_payment_status
        (insert_payment [] "2024-01-01 10:00:00" 0 "" "A-1" "svc" 1500
          "http://pay/1" "created" none) "A-1" "paid").1,
      r.status = "created" ∨ r.status = "paid") ∧
    (∀ db', Step (update_payment_status
        (insert_payment [] "2024-01-01 10:00:00" 0 "" "A-1" "svc" 1500
          "http://pay/1" "created" none) "A-1" "paid").1 db' → ∀ i : Nat,
      statusOf (update_payment_status
        (insert_payment [] "2024-01-01 10:00:00" 0 "" "A-1" "svc" 1500
          "http://pay/1" "created" none) "A-1" "paid").1 i = some "paid" →
      statusOf db' i = some "paid") :=
  ledger_status_invariant _
    (Reachable.step
      (Reachable.step Reachable.nil
        (Step.insert [] "2024-01-01 10:00:00" 0 "" "A-1" "svc" 1500
          "http://pay/1" none))
      (Step.markPaid _ "A-1"))

/-! ## C1 -/

theorem setStatusIf_idem (ord : String) (r : Row) :
    setStatusIf ord "paid" (setStatusIf ord "paid" r) = setStatusIf ord "paid" r := by
  unfold setStatusIf
  by_cases h : (r.order_number == ord) = true <;> simp [h]

theorem update_paid_idem (db : List Row) (ord : String) :
    (update_payment_status (update_payment_status db ord "paid").1 ord "paid").1 =
      (update_payment_status db ord "paid").1 := by
  simp only [update_payment_status_eq, List.map_map]
  apply List.map_congr_left
  intro r _
  exact setStatusIf_idem ord r

theorem update_paid_count_stable (db : List Row) (ord : String) :
    (update_payment_status (update_payment_status db ord "paid").1 ord "paid").2 =
      (update_payment_status db ord "paid").2 := by
  simp only [update_payment_status_eq]
  rw [filter_order_map_setStatusIf, List.length_map]

/-- The query-string map of an inbound confirmation carrying order `ord`. -/
def confirmQuery (ord : String) : String → Option String :=
  fun k => if k = "Shp_order" then some ord else none

/-- C1 (amended): `update_payment_status` is idempotent on the ledger state —
a second call for the same order leaves every matching row "paid", changes no
row, and does not error (the handler still answers 200 "OK") — but the second
call returns the SAME affected-row count as the first (SQLite counts rows
matched by the WHERE clause even when the value is unchanged), so a second
inbound confirmation re-triggers the paid-notification exactly as the first
did, rather than suppressing it. -/
theorem mark_paid_idempotent_state_but_renotifies (db : List Row) (ord : String)
    (hord : ord ≠ "") :
    (update_payment_status (update_payment_status db ord "paid").1 ord "paid").1 =
      (update_payment_status db ord "paid").1 ∧
    (update_payment_status (update_payment_status db ord "paid").1 ord "paid").2 =
      (update_payment_status db ord "paid").2 ∧
    (∀ r ∈ (update_payment_status (update_payment_status db ord "paid").1 ord "paid").1,
      r.order_number = ord → r.status = "paid") ∧
    (resultHandle "GET" (fun _ => none) (confirmQuery ord)
        (resultHandle "GET" (fun _ => none) (confirmQuery ord) db none none).1
        none none).2.2 = ⟨200, "OK"⟩ ∧
    (resultHandle "GET" (fun _ => none) (confirmQuery ord)
        (resultHandle "GET" (fun _ => none) (confirmQuery ord) db none none).1
        none none).2.1 =
      (resultHandle "GET" (fun _ => none) (confirmQuery ord) db none none).2.1 := by
  have hq : confirmQuery ord "Shp_order" = some ord := by
    unfold confirmQuery
    simp
  have htr : pyTruthy (some ord) = true := by
    unfold pyTruthy
    exact bne_iff_ne.mpr hord
  have hm : (("GET" : String) == "POST") = false := by decide
  have hfirst1 : (resultHandle "GET" (fun _ => none) (confirmQuery ord) db none none).1 =
      (update_payment_status db ord "paid").1 := by
    simp only [resultHandle, hm, Bool.false_eq_true, if_false, hq, htr, if_true,
      Option.getD_some]
    split
    · split <;> rfl
    · rfl
  refine ⟨update_paid_idem db ord, update_paid_count_stable db ord, ?_, ?_, ?_⟩
  · intro r hr hro
    rw [update_paid_idem db ord, update_payment_status_eq] at hr
    obtain ⟨x, hx, hxr⟩ := List.mem_map.mp hr
    have hxo : x.order_number = ord := by
      rw [← hxr, setStatusIf_order] at hro
      exact hro
    rw [← hxr, setStatusIf_matched ord x hxo]
  · rw [hfirst1]
    simp only [resultHandle, hm, Bool.false_eq_true, if_false, hq, htr, if_true,
      Option.getD_some]
    split
    · split <;> rfl
    · rfl
  · rw [hfirst1]
    simp only [resultHandle, hm, Bool.false_eq_true, if_false, hq, htr, if_true,
      Option.getD_some]
    rw [update_paid_idem db ord, update_paid_count_stable db ord]

/-- Witness for C1's amended statement at a one-row ledger for order "A-1". -/
theorem mark_paid_idempotent_state_but_renotifies_witness :
    (update_payment_status (update_payment_status [sampleRow1] "A-1" "paid").1
        "A-1" "paid").1 = (update_payment_status [sampleRow1] "A-1" "paid").1 ∧
    (update_payment_status (update_payment_status [sampleRow1] "A-1" "paid").1
        "A-1" "paid").2 = (update_payment_status [sampleRow1] "A-1" "paid").2 ∧
    (∀ r ∈ (update_payment_status (update_payment_status [sampleRow1] "A-1" "paid").1
        "A-1" "paid").1, r.order_number = "A-1" → r.status = "paid") ∧
    (resultHandle "GET" (fun _ => none) (confirmQuery "A-1")
        (resultHandle "GET" (fun _ => none) (confirmQuery "A-1") [sampleRow1] none none).1
        none none).2.2 = ⟨200, "OK"⟩ ∧
    (resultHandle "GET" (fun _ => none) (confirmQuery "A-1")
        (resultHandle "GET" (fun _ => none) (confirmQuery "A-1") [sampleRow1] none none).1
        none none).2.1 =
      (resultHandle "GET" (fun _ => none) (confirmQuery "A-1") [sampleRow1] none none).2.1 :=
  mark_paid_idempotent_state_but_renotifies [sampleRow1] "A-1" (by decide)

/-- Counterexample for C1 as stated: on a ledger holding one "created" row
for order "A-1", the first inbound confirmation triggers the paid-notification
— and so does the second one, because the second `UPDATE` still reports one
affected row; the claimed "no second paid-notification" is false. -/
theorem mark_paid_renotify_counterexample :
    (resultHandle "GET" (fun _ => none) (confirmQuery "A-1") [sampleRow1]
      none none).2.1 = true ∧
    (resultHandle "GET" (fun _ => none) (confirmQuery "A-1")
      (resultHandle "GET" (fun _ => none) (confirmQuery "A-1") [sampleRow1]
        none none).1 none none).2.1 = true := by
  constructor
  · rfl
  · rfl

/-! ## C5 -/

/-- C5 (amended): for every inbound request (either method, any field maps,
any ledger) the handler answers 200 "OK" whenever the ledger update succeeds
— also when no `Shp_order` field is present, when no row matches, and when
the notification lookup raises (the inner `try` swallows that exception and
the response stays 200 rather than becoming a 500) — and answers 500 with
the error description exactly when the ledger update itself raises; every
outcome is one of these two responses, so no exception escapes the
handler. -/
theorem listener_response_policy (method : String)
    (postData queryData : String → Option String) (db : List Row)
    (updateExc getLastExc : Option String) :
    (updateExc = none →
      (resultHandle method postData queryData db updateExc getLastExc).2.2 =
        ⟨200, "OK"⟩) ∧
    (pyTruthy ((if method == "POST" then postData else queryData) "Shp_order") = false →
      (resultHandle method postData queryData db updateExc getLastExc).2.2 =
        ⟨200, "OK"⟩) ∧
    (∀ e, updateExc = some e →
      pyTruthy ((if method == "POST" then postData else queryData) "Shp_order") = true →
      (resultHandle method postData queryData db updateExc getLastExc).2.2 =
        ⟨500, "Error: " ++ e⟩) ∧
    ((resultHandle method postData queryData db updateExc getLastExc).2.2.status = 200 ∨
     (resultHandle method postData queryData db updateExc getLastExc).2.2.status = 500) := by
  refine ⟨?_, ?_, ?_, ?_⟩
  · intro h
    unfold resultHandle
    simp only [h]
    by_cases hshp :
        pyTruthy ((if method == "POST" then postData else queryData) "Shp_order") = true
    · simp only [hshp, if_true]
      repeat' split
      all_goals rfl
    · simp only [Bool.not_eq_true] at hshp
      simp only [hshp, Bool.false_eq_true, if_false]
  · intro h
    unfold resultHandle
    simp only [h, Bool.false_eq_true, if_false]
  · intro e he htrue
    unfold resultHandle
    simp only [he, htrue, if_true]
  · unfold resultHandle
    by_cases hshp :
        pyTruthy ((if method == "POST" then postData else queryData) "Shp_order") = true
    · simp only [hshp, if_true]
      cases updateExc with
      | some e => right; rfl
      | none =>
        left
        repeat' split
        all_goals first | rfl | simp_all
    · simp only [Bool.not_eq_true] at hshp
      simp only [hshp, Bool.false_eq_true, if_false]
      first | exact Or.inl rfl | trivial

/-- Witness for C5: a failing ledger update on a present order number yields
the 500 response with the error text; the successful case yields 200 "OK". -/
theorem listener_response_policy_witness :
    (resultHandle "GET" (fun _ => none) (confirmQuery "A-1") [sampleRow1]
      (some "database is locked") none).2.2 =
        ⟨500, "Error: database is locked"⟩ ∧
    (resultHandle "GET" (fun _ => none) (confirmQuery "A-1") [sampleRow1]
      none none).2.2 = ⟨200, "OK"⟩ :=
  ⟨(listener_response_policy "GET" (fun _ => none) (confirmQuery "A-1")
      [sampleRow1] (some "database is locked") none).2.2.1
        "database is locked" rfl (by decide),
   (listener_response_policy "GET" (fun _ => none) (confirmQuery "A-1")
      [sampleRow1] none none).1 rfl⟩

/-- Counterexample for C5 as stated: an internal failure in the
post-update notification lookup (`get_last_payment` raising inside the inner
`try`) is swallowed, and the handler answers 200 "OK" — not the claimed 500 —
while skipping the notification. -/
theorem notify_lookup_failure_still_ok_counterexample :
    (resultHandle "GET" (fun _ => none) (confirmQuery "A-1") [sampleRow1]
      none (some "database is locked")).2.2 = ⟨200, "OK"⟩ ∧
    (resultHandle "GET" (fun _ => none) (confirmQuery "A-1") [sampleRow1]
      none (some "database is locked")).2.1 = false := by
  constructor
  · rfl
  · rfl

/-! ## C6 -/

/-- C6: with the merchant login or the first password unset,
`build_invoice_jwt` fails with the configuration error (and so never reaches
the network call of `create_invoice_and_get_link`); with the merchant login
or the second password unset, `get_payment_state` fails with its
configuration error before constructing the status request, so no HTTP
request is made in either unconfigured state. -/
theorem unconfigured_fails_before_network
    (login pass1 pass2 tax desc amountRepr itemName invId : String)
    (h1 : login = "" ∨ pass1 = "") (h2 : login = "" ∨ pass2 = "") :
    (build_invoice_jwt login pass1 tax desc amountRepr itemName =
      .error "Не заданы MerchantLogin / Password1 в настройках Robokassa." ∧
     ∀ p : JwtParts, build_invoice_jwt login pass1 tax desc amountRepr itemName ≠ .ok p) ∧
    (get_payment_state login pass2 invId =
      .error "Не заданы MerchantLogin / Password2 в настройках Robokassa." ∧
     ∀ r : OpStateRequest, get_payment_state login pass2 invId ≠ .ok r) := by
  constructor
  · have he : build_invoice_jwt login pass1 tax desc amountRepr itemName =
        .error "Не заданы MerchantLogin / Password1 в настройках Robokassa." := by
      unfold build_invoice_jwt
      rw [if_pos h1]
    exact ⟨he, fun p hp => by rw [he] at hp; cases hp⟩
  · have he : get_payment_state login pass2 invId =
        .error "Не заданы MerchantLogin / Password2 в настройках Robokassa." := by
      unfold get_payment_state
      rw [if_pos h2]
    exact ⟨he, fun r hr => by rw [he] at hr; cases hr⟩

/-- Witness for C6 with an empty merchant login. -/
theorem unconfigured_fails_before_network_witness :
    (build_invoice_jwt "" "p1" "none" "desc" "100.0" "item" =
      .error "Не заданы MerchantLogin / Password1 в настройках Robokassa." ∧
     ∀ p : JwtParts, build_invoice_jwt "" "p1" "none" "desc" "100.0" "item" ≠ .ok p) ∧
    (get_payment_state "" "p2" "42" =
      .error "Не заданы MerchantLogin / Password2 в настройках Robokassa." ∧
     ∀ r : OpStateRequest, get_payment_state "" "p2" "42" ≠ .ok r) :=
  unconfigured_fails_before_network "" "p1" "p2" "none" "desc" "100.0" "item" "42"
    (Or.inl rfl) (Or.inl rfl)

/-! ## C7 -/

/-- C7: for every parsed CreateInvoice response object: a falsy success flag
produces a gateway error, and when the provider's `message` is a non-empty
string the error text contains it verbatim; a truthy success flag with no
truthy link among the six casing variants produces the "no link in response"
error instead of returning; a truthy link value is returned together with the
id extracted from its own casing variants. -/
theorem invoice_response_handling (data : List (String × JVal)) :
    (truthyOpt (jget data "isSuccess") = false →
      (∃ m : String, create_invoice_process data = .error m) ∧
      (∀ s : String, jget data "message" = some (.jStr s) → s ≠ "" →
        create_invoice_process data =
          .error ("Robokassa вернула ошибку: " ++ s) ∧
        ∃ pre post : String,
          "Robokassa вернула ошибку: " ++ s = pre ++ s ++ post)) ∧
    (truthyOpt (jget data "isSuccess") = true →
      (truthyOpt (linkOf data) = false →
        create_invoice_process data =
          .error ("Не удалось найти ссылку в ответе Invoice API: " ++
            jsonDumpObj data)) ∧
      (∀ v : JVal, linkOf data = some v → v.truthy = true →
        create_invoice_process data = .ok (v, invoiceIdOf data))) := by
  constructor
  · intro hfail
    unfold create_invoice_process
    rw [if_pos hfail]
    refine ⟨⟨_, rfl⟩, ?_⟩
    intro s hmsg hs
    rw [hmsg]
    have hst : (JVal.jStr s).truthy = true := by
      unfold JVal.truthy
      exact bne_iff_ne.mpr hs
    simp only [hst, if_true]
    refine ⟨rfl, "Robokassa вернула ошибку: ", "", ?_⟩
    rw [String.append_empty]
  · intro hsucc
    unfold create_invoice_process
    rw [if_neg (by rw [hsucc]; exact Bool.true_eq_false ▸ (by simp))]
    constructor
    · intro hlink
      cases hl : linkOf data with
      | none => rfl
      | some v =>
        rw [hl] at hlink
        have hv : v.truthy = false := hlink
        simp only [hv, Bool.false_eq_true, if_false]
    · intro v hl hv
      rw [hl]
      simp only [hv, if_true]

/-- Witness for C7: the spec's example response
`{"isSuccess": false, "message": "bad signature"}` produces a gateway error
carrying "bad signature" verbatim. -/
theorem invoice_response_handling_witness :
    create_invoice_process
      [("isSuccess", .jBool false), ("message", .jStr "bad signature")] =
        .error ("Robokassa вернула ошибку: " ++ "bad signature") ∧
    ∃ pre post : String,
      ("Robokassa вернула ошибку: " ++ "bad signature" : String) =
        pre ++ "bad signature" ++ post :=
  ((invoice_response_handling
      [("isSuccess", .jBool false), ("message", .jStr "bad signature")]).1
    (by decide)).2 "bad signature" (by decide) (by decide)

/-! ## C10 -/

theorem dropWhile_idem {α : Type} (p : α → Bool) (l : List α) :
    (l.dropWhile p).dropWhile p = l.dropWhile p := by
  induction l with
  | nil => rfl
  | cons a t ih =>
    by_cases h : p a = true
    · simp [List.dropWhile_cons, h, ih]
    · simp [List.dropWhile_cons, h]

theorem dropWhile_append_self {α : Type} (p : α → Bool) (l t : List α)
    (h : (l ++ t).dropWhile p = l ++ t) : l.dropWhile p = l := by
  induction l with
  | nil => rfl
  | cons a l' ih =>
    by_cases ha : p a = true
    · exfalso
      rw [List.cons_append, List.dropWhile_cons, if_pos ha] at h
      have hlen := congrArg List.length h
      have := (@List.dropWhile_suffix α (l' ++ t) p).length_le
      simp only [List.length_cons] at hlen
      omega
    · rw [List.dropWhile_cons, if_neg ha]

theorem pyStrip_idem (s : String) : pyStrip (pyStrip s) = pyStrip s := by
  unfold pyStrip
  set p := isPySpace with hp
  set m := s.data.dropWhile p with hm
  have hmm : m.dropWhile p = m := by rw [hm]; exact dropWhile_idem p s.data
  set b := (m.reverse.dropWhile p).reverse with hb
  obtain ⟨s', hs⟩ := @List.dropWhile_suffix Char m.reverse p
  have hbt : b ++ s'.reverse = m := by
    rw [hb, ← List.reverse_append, hs, List.reverse_reverse]
  have hbclean : b.dropWhile p = b := by
    apply dropWhile_append_self p b s'.reverse
    rw [hbt]
    exact hmm
  show String.mk ((((String.mk b).data.dropWhile p).reverse.dropWhile p).reverse) =
    String.mk b
  have hdata : (String.mk b).data = b := rfl
  rw [hdata, hbclean, hb, List.reverse_reverse, dropWhile_idem]

/-- Provenance of a plain field entry: the source element is present with a
non-empty text whose stripped form is the value. -/
def keyFrom (e : Option Xml) (v : String) : Prop :=
  ∃ tag t ch, e = some (Xml.el tag (some t) ch) ∧ t ≠ "" ∧ v = pyStrip t

theorem mem_addFieldOne (k' v k : String) (e : Option Xml) :
    (k', v) ∈ addFieldOne k e ↔ k' = k ∧ keyFrom e v := by
  cases e with
  | none => simp [addFieldOne, keyFrom]
  | some x =>
    cases x with
    | el tag txt ch =>
      cases txt with
      | none => simp [addFieldOne, keyFrom]
      | some t =>
        by_cases ht : t = ""
        · subst ht
          simp [addFieldOne, keyFrom]
        · simp only [addFieldOne]
          rw [if_pos ht]
          simp only [List.mem_singleton, Prod.mk.injEq, keyFrom,
            Option.some.injEq, Xml.el.injEq]
          constructor
          · rintro ⟨hk, hv⟩
            exact ⟨hk, tag, t, ch, ⟨rfl, rfl, rfl⟩, ht, hv⟩
          · rintro ⟨hk, tag1, t1, ch1, ⟨-, ht1, -⟩, -, hv⟩
            cases ht1
            exact ⟨hk, hv⟩

theorem mem_stateFallbackOne (k' v : String) (stateEl : Option Xml) :
    (k', v) ∈ stateFallbackOne stateEl ↔
      k' = "StateCode" ∧ ∃ tag t ch, stateEl = some (Xml.el tag (some t) ch) ∧
        t ≠ "" ∧ pyIsDigit (pyStrip t) = true ∧ v = pyStrip t := by
  cases stateEl with
  | none => simp [stateFallbackOne]
  | some x =>
    cases x with
    | el tag txt ch =>
      cases txt with
      | none => simp [stateFallbackOne]
      | some t =>
        by_cases hc : t ≠ "" ∧ pyIsDigit (pyStrip t) = true
        · simp only [stateFallbackOne]
          rw [if_pos hc]
          simp only [List.mem_singleton, Prod.mk.injEq, Option.some.injEq,
            Xml.el.injEq]
          constructor
          · rintro ⟨hk, hv⟩
            exact ⟨hk, tag, t, ch, ⟨rfl, rfl, rfl⟩, hc.1, hc.2, hv⟩
          · rintro ⟨hk, tag1, t1, ch1, ⟨-, ht1, -⟩, -, -, hv⟩
            cases ht1
            exact ⟨hk, hv⟩
        · simp only [stateFallbackOne]
          rw [if_neg hc]
          simp only [List.not_mem_nil, false_iff, not_and]
          intro _
          rintro ⟨tag1, t1, ch1, heq, ht1, hd1, hv⟩
          cases heq
          exact hc ⟨ht1, hd1⟩

theorem mem_stateCodeOne (k' v : String) (code stateEl : Option Xml) :
    (k', v) ∈ stateCodeOne code stateEl ↔
      (k' = "StateCode" ∧ keyFrom code v) ∨
      (hasText code = false ∧ (k', v) ∈ stateFallbackOne stateEl) := by
  cases code with
  | none => simp [stateCodeOne, keyFrom, hasText]
  | some x =>
    cases x with
    | el tag txt ch =>
      cases txt with
      | none => simp [stateCodeOne, keyFrom, hasText]
      | some t =>
        by_cases ht : t = ""
        · subst ht
          simp [stateCodeOne, keyFrom, hasText]
        · simp only [stateCodeOne]
          rw [if_pos ht]
          have hht : hasText (some (Xml.el tag (some t) ch)) = true := by
            simp [hasText, ht]
          simp only [List.mem_singleton, Prod.mk.injEq, keyFrom,
            Option.some.injEq, Xml.el.injEq, hht, Bool.true_eq_false,
            false_and, or_false]
          constructor
          · rintro ⟨hk, hv⟩
            exact ⟨hk, tag, t, ch, ⟨rfl, rfl, rfl⟩, ht, hv⟩
          · rintro ⟨hk, tag1, t1, ch1, ⟨-, ht1, -⟩, -, hv⟩
            cases ht1
            exact ⟨hk, hv⟩

theorem addFieldOne_stripped (k : String) (e : Option Xml) :
    ∀ kv ∈ addFieldOne k e, pyStrip kv.2 = kv.2 := by
  intro kv hkv
  obtain ⟨k', v⟩ := kv
  rcases (mem_addFieldOne k' v k e).mp hkv with ⟨-, tag, t, ch, -, -, hv⟩
  subst hv
  exact pyStrip_idem t

theorem stateFallbackOne_stripped (stateEl : Option Xml) :
    ∀ kv ∈ stateFallbackOne stateEl, pyStrip kv.2 = kv.2 := by
  intro kv hkv
  obtain ⟨k', v⟩ := kv
  rcases (mem_stateFallbackOne k' v stateEl).mp hkv with ⟨-, tag, t, ch, -, -, -, hv⟩
  subst hv
  exact pyStrip_idem t

theorem stateCodeOne_stripped (code stateEl : Option Xml) :
    ∀ kv ∈ stateCodeOne code stateEl, pyStrip kv.2 = kv.2 := by
  intro kv hkv
  obtain ⟨k', v⟩ := kv
  rcases (mem_stateCodeOne k' v code stateEl).mp hkv with
    ⟨-, tag, t, ch, -, -, hv⟩ | ⟨-, hmem⟩
  · subst hv
    exact pyStrip_idem t
  · exact stateFallbackOne_stripped stateEl _ hmem

/-- C10 (amended): every value in the returned StatusInfo is
whitespace-stripped, and each of the twelve keys is present exactly when its
source element supplies it: a plain key is present with value `v` iff its
element (`PaymentMethodCode` reading the three-level `Info/PaymentMethod/Code`
path) is present with non-empty text `t` and `v = t.strip()`; `StateCode` is
present with value `v` iff `State/Code` is present with non-empty text `t`
and `v = t.strip()`, or — the fallback — `State/Code` supplies no text and
the `State` element's own text is non-empty and strips to a digit string `v`.
So values can be the empty string (whitespace-only `State/Code` text), and an
absent `State/Code` can still yield a `StateCode` key. -/
theorem parse_opstate_values (root : Xml) :
    (∀ kv ∈ parse_opstate_xml root, pyStrip kv.2 = kv.2) ∧
    (∀ v : String, ("StateCode", v) ∈ parse_opstate_xml root ↔
      (keyFrom (findPath2 (stripNsAll root) "State" "Code") v ∨
       (hasText (findPath2 (stripNsAll root) "State" "Code") = false ∧
        ∃ tag t ch, findPath1 (stripNsAll root) "State" =
          some (Xml.el tag (some t) ch) ∧ t ≠ "" ∧
          pyIsDigit (pyStrip t) = true ∧ v = pyStrip t))) ∧
    (∀ v : String, ("ResultCode", v) ∈ parse_opstate_xml root ↔
      keyFrom (findPath2 (stripNsAll root) "Result" "Code") v) ∧
    (∀ v : String, ("ResultDescription", v) ∈ parse_opstate_xml root ↔
      keyFrom (findPath2 (stripNsAll root) "Result" "Description") v) ∧
    (∀ v : String, ("RequestDate", v) ∈ parse_opstate_xml root ↔
      keyFrom (findPath2 (stripNsAll root) "State" "RequestDate") v) ∧
    (∀ v : String, ("StateDate", v) ∈ parse_opstate_xml root ↔
      keyFrom (findPath2 (stripNsAll root) "State" "StateDate") v) ∧
    (∀ v : String, ("IncCurrLabel", v) ∈ parse_opstate_xml root ↔
      keyFrom (findPath2 (stripNsAll root) "Info" "IncCurrLabel") v) ∧
    (∀ v : String, ("IncSum", v) ∈ parse_opstate_xml root ↔
      keyFrom (findPath2 (stripNsAll root) "Info" "IncSum") v) ∧
    (∀ v : String, ("IncAccount", v) ∈ parse_opstate_xml root ↔
      keyFrom (findPath2 (stripNsAll root) "Info" "IncAccount") v) ∧
    (∀ v : String, ("PaymentMethodCode", v) ∈ parse_opstate_xml root ↔
      keyFrom (findPath3 (stripNsAll root) "Info" "PaymentMethod" "Code") v) ∧
    (∀ v : String, ("OutCurrLabel", v) ∈ parse_opstate_xml root ↔
      keyFrom (findPath2 (stripNsAll root) "Info" "OutCurrLabel") v) ∧
    (∀ v : String, ("OutSum", v) ∈ parse_opstate_xml root ↔
      keyFrom (findPath2 (stripNsAll root) "Info" "OutSum") v) ∧
    (∀ v : String, ("OpKey", v) ∈ parse_opstate_xml root ↔
      keyFrom (findPath2 (stripNsAll root) "Info" "OpKey") v) := by
  constructor
  · intro kv hkv
    simp only [parse_opstate_xml, List.mem_append] at hkv
    rcases hkv with
      (((((((((((h | h) | h) | h) | h) | h) | h) | h) | h) | h) | h) | h)
    all_goals
      first
      | exact addFieldOne_stripped _ _ kv h
      | exact stateCodeOne_stripped _ _ kv h
  refine ⟨?_, ?_, ?_, ?_, ?_, ?_, ?_, ?_, ?_, ?_, ?_, ?_⟩
  all_goals
    intro v
    simp only [parse_opstate_xml, List.mem_append, mem_addFieldOne,
      mem_stateCodeOne, mem_stateFallbackOne]
    simp [keyFrom]

/-- Sample namespaced status document whose `State` element carries only its
own digit text (no `State/Code` child). -/
def sampleOpStateDoc : Xml :=
  .el "ns\x7dRoot" none [.el "ns\x7dState" (some " 100 ") []]

/-- Witness for C10's amended statement: on the sample document the values
are stripped and the StateCode characterization holds at the value "100"
(supplied by the fallback from the `State` element's own text). -/
theorem parse_opstate_values_witness :
    (∀ kv ∈ parse_opstate_xml sampleOpStateDoc, pyStrip kv.2 = kv.2) ∧
    (("StateCode", "100") ∈ parse_opstate_xml sampleOpStateDoc ↔
      (keyFrom (findPath2 (stripNsAll sampleOpStateDoc) "State" "Code") "100" ∨
       (hasText (findPath2 (stripNsAll sampleOpStateDoc) "State" "Code") = false ∧
        ∃ tag t ch, findPath1 (stripNsAll sampleOpStateDoc) "State" =
          some (Xml.el tag (some t) ch) ∧ t ≠ "" ∧
          pyIsDigit (pyStrip t) = true ∧ "100" = pyStrip t))) :=
  ⟨(parse_opstate_values sampleOpStateDoc).1,
   (parse_opstate_values sampleOpStateDoc).2.1 "100"⟩

/-- Counterexample for C10 as stated, in both failure modes: a `State/Code`
whose text is a single space is truthy in Python, so the parser emits
`StateCode` with the stripped value `""` (an empty-string value in the
dictionary); and with `State/Code` entirely absent, the `State` element's
own digit text still produces a `StateCode` key (so an absent state code is
not represented by a missing entry). -/
theorem opstate_empty_value_counterexample :
    parse_opstate_xml
      (.el "Root" none [.el "State" none [.el "Code" (some " ") []]]) =
      [("StateCode", "")] ∧
    ¬ (∀ kv ∈ parse_opstate_xml
        (.el "Root" none [.el "State" none [.el "Code" (some " ") []]]),
        kv.2 ≠ "") ∧
    parse_opstate_xml (.el "Root" none [.el "State" (some "100") []]) =
      [("StateCode", "100")] := by
  refine ⟨by decide, by decide, by decide⟩


/-! ## C2 -/

/-- Generic splitter on the dot character (how a JWT consumer separates the
three token segments). -/
def splitOnDot : List Char → List (List Char)
  | [] => [[]]
  | c :: r =>
    match splitOnDot r with
    | [] => [[c]]
    | h :: t => if c = '.' then [] :: h :: t else (c :: h) :: t

theorem splitOnDot_ne_nil (l : List Char) : splitOnDot l ≠ [] := by
  cases l with
  | nil => simp [splitOnDot]
  | cons c r =>
    simp only [splitOnDot]
    cases splitOnDot r with
    | nil => simp
    | cons h t =>
      by_cases hc : c = '.'
      · simp [hc]
      · simp [hc]

theorem splitOnDot_no_dot (xs : List Char) (h : '.' ∉ xs) :
    splitOnDot xs = [xs] := by
  induction xs with
  | nil => rfl
  | cons c r ih =>
    have hc : c ≠ '.' := fun hc => h (hc ▸ List.mem_cons_self c r)
    have hr : '.' ∉ r := fun hr => h (List.mem_cons_of_mem c hr)
    simp only [splitOnDot, ih hr]
    simp [hc]

theorem splitOnDot_append (xs ys : List Char) (h : '.' ∉ xs) :
    splitOnDot (xs ++ '.' :: ys) = xs :: splitOnDot ys := by
  induction xs with
  | nil =>
    simp only [List.nil_append, splitOnDot]
    cases hys : splitOnDot ys with
    | nil => exact absurd hys (splitOnDot_ne_nil ys)
    | cons h t => simp
  | cons c r ih =>
    have hc : c ≠ '.' := fun hc => h (hc ▸ List.mem_cons_self c r)
    have hr : '.' ∉ r := fun hr => h (List.mem_cons_of_mem c hr)
    show splitOnDot (c :: (r ++ '.' :: ys)) = (c :: r) :: splitOnDot ys
    simp only [splitOnDot]
    rw [ih hr]
    simp [hc]

theorem b64Char_mem (n : Nat) : b64Char n ∈ b64Alphabet := by
  unfold b64Char
  rw [List.getD_eq_getElem?_getD]
  cases h : b64Alphabet[n]? with
  | none =>
    simp only [Option.getD_none]
    decide
  | some c =>
    simp only [Option.getD_some]
    obtain ⟨hn, hc⟩ := List.getElem?_eq_some.mp h
    exact hc ▸ List.getElem_mem hn

theorem b64_mem : ∀ (l : List Nat) (x : Char), x ∈ base64urlNoPad l →
    x ∈ b64Alphabet
  | [], _, h => by simp [base64urlNoPad] at h
  | [a], x, h => by
    simp only [base64urlNoPad, List.mem_cons, List.not_mem_nil, or_false] at h
    rcases h with h | h
    · exact h ▸ b64Char_mem _
    · exact h ▸ b64Char_mem _
  | [a, b], x, h => by
    simp only [base64urlNoPad, List.mem_cons, List.not_mem_nil, or_false] at h
    rcases h with h | h | h
    · exact h ▸ b64Char_mem _
    · exact h ▸ b64Char_mem _
    · exact h ▸ b64Char_mem _
  | a :: b :: c :: rest, x, h => by
    simp only [base64urlNoPad, List.mem_cons] at h
    rcases h with h | h | h | h | h
    · exact h ▸ b64Char_mem _
    · exact h ▸ b64Char_mem _
    · exact h ▸ b64Char_mem _
    · exact h ▸ b64Char_mem _
    · exact b64_mem rest x h

theorem b64_no_dot (l : List Nat) : '.' ∉ base64urlNoPad l := by
  intro h
  have := b64_mem l '.' h
  revert this
  decide

theorem string_concat2 (a b : List Char) :
    String.mk a ++ "." ++ String.mk b = String.mk (a ++ '.' :: b) := by
  apply congrArg String.mk ?_
  show (a ++ ['.']) ++ b = a ++ '.' :: b
  simp

theorem string_concat3 (a b c : List Char) :
    String.mk a ++ "." ++ String.mk b ++ "." ++ String.mk c =
      String.mk (a ++ '.' :: (b ++ '.' :: c)) := by
  apply congrArg String.mk ?_
  show ((a ++ ['.']) ++ b ++ ['.']) ++ c = a ++ '.' :: (b ++ '.' :: c)
  simp

theorem strBytes_mk (l : List Char) : strBytes (String.mk l) = charsBytes l := rfl

/-- C2: with the merchant login and first password set, the invoice token is
exactly `header.payload.signature`: splitting it on dots yields precisely
three segments, the first two are the base64url encodings (no padding) of the
UTF-8 bytes of the compact JSON header and payload, and the third is the
base64url encoding of the HMAC-MD5 of the byte string `header.payload` under
the key `login:password1` — so re-signing the first two segments with the
same key reproduces the signature segment exactly. -/
theorem invoice_jwt_structure (login pass1 tax desc amountRepr itemName : String)
    (h1 : login ≠ "") (h2 : pass1 ≠ "") :
    ∃ hb pb sb : List Char,
      hb = base64urlNoPad (strBytes headerJsonStr) ∧
      pb = base64urlNoPad
        (strBytes (payloadJsonStr login desc itemName tax amountRepr)) ∧
      sb = base64urlNoPad (hmacMd5 (strBytes (login ++ ":" ++ pass1))
        (charsBytes (hb ++ '.' :: pb))) ∧
      build_invoice_jwt login pass1 tax desc amountRepr itemName =
        .ok ⟨String.mk (hb ++ '.' :: (pb ++ '.' :: sb)),
             String.mk hb, String.mk pb⟩ ∧
      splitOnDot (hb ++ '.' :: (pb ++ '.' :: sb)) = [hb, pb, sb] := by
  refine ⟨_, _, _, rfl, rfl, rfl, ?_, ?_⟩
  · unfold build_invoice_jwt
    rw [if_neg (by simp [h1, h2])]
    simp only [string_concat2, strBytes_mk, string_concat3]
    simp [List.append_assoc]
  · rw [splitOnDot_append _ _ (b64_no_dot _),
      splitOnDot_append _ _ (b64_no_dot _),
      splitOnDot_no_dot _ (b64_no_dot _)]

/-- Witness for C2 at a concrete configuration and invoice. -/
theorem invoice_jwt_structure_witness :
    ∃ hb pb sb : List Char,
      hb = base64urlNoPad (strBytes headerJsonStr) ∧
      pb = base64urlNoPad
        (strBytes (payloadJsonStr "demo" "Заказ №7" "Услуги" "none" "1500.0")) ∧
      sb = base64urlNoPad (hmacMd5 (strBytes ("demo" ++ ":" ++ "pass1"))
        (charsBytes (hb ++ '.' :: pb))) ∧
      build_invoice_jwt "demo" "pass1" "none" "Заказ №7" "1500.0" "Услуги" =
        .ok ⟨String.mk (hb ++ '.' :: (pb ++ '.' :: sb)),
             String.mk hb, String.mk pb⟩ ∧
      splitOnDot (hb ++ '.' :: (pb ++ '.' :: sb)) = [hb, pb, sb] :=
  invoice_jwt_structure "demo" "pass1" "none" "Заказ №7" "1500.0" "Услуги"
    (by decide) (by decide)

end Robo

